import Mathlib

/-!
Shallow embedding of the notes-app data-synchronization core:
the validation helpers (`sanitizeNoteInput`, `validateNote`), the transport
(`apiRequest`), the resource-client operations (`listNotes`, `createNote`,
`updateNote`) with their loading/error state (`withLoading`), and the
coordinator handlers (`handleAddNote`, `handleSaveNote`).

JavaScript strings are modelled by Lean `String`, with `.length` modelled as
UTF-16 code-unit count and `String.prototype.trim` modelled over the
ECMAScript whitespace set.  JavaScript values that can be `null`/`undefined`
are modelled with `Option`; parsed JSON values are modelled by `JVal`.
-/

namespace NotesApp

/-- ECMAScript whitespace (the set removed by `String.prototype.trim`):
tab, LF, VT, FF, CR, space, NBSP, and the Unicode space separators,
line/paragraph separators and BOM. -/
def jsWhitespace (c : Char) : Bool :=
  c = '\t' || c = '\n' || c = '\x0b' || c = '\x0c' || c = '\r' || c = ' ' ||
  c = ' ' || c = ' ' ||
  (' ' ≤ c && c ≤ ' ') ||
  c = ' ' || c = ' ' || c = ' ' || c = ' ' ||
  c = '　' || c = '﻿'

/-- Model of `String.prototype.trim` on the underlying character list: drop leading and
trailing whitespace. -/
def jsTrimList (l : List Char) : List Char :=
  ((l.dropWhile jsWhitespace).reverse.dropWhile jsWhitespace).reverse

/-- Model of JavaScript `String.prototype.trim`. -/
def jsTrim (s : String) : String :=
  ⟨jsTrimList s.data⟩

/-- JavaScript `String.prototype.length`: the number of UTF-16 code units
(astral code points count as 2). -/
def jsLength (s : String) : Nat :=
  (s.data.map (fun c => if c.toNat < 0x10000 then 1 else 2)).sum

/-- Raw `{title, content}` input where each field may be `null`/`undefined`
(modelled `none`) or a string. -/
structure RawNoteInput where
  title : Option String
  content : Option String
deriving DecidableEq, Repr

/-- The sanitized `{title, content}` payload: both fields are strings. -/
structure NotePayload where
  title : String
  content : String
deriving DecidableEq, Repr

/-- Model of `sanitizeNoteInput` (src/notes_frontend/src/utils/validation.js):
missing (`undefined`/`null`) fields are coerced to the empty string via the
destructuring default and `?? ''`, then each field is `String(...).trim()`ed. -/
def sanitizeNoteInput (x : RawNoteInput) : NotePayload :=
  { title := jsTrim (x.title.getD "")
    content := jsTrim (x.content.getD "") }

def MAX_TITLE : Nat := 200
def MAX_CONTENT : Nat := 10000

/-- The `errors` object of `validateNote`: optional per-field messages. -/
structure VErrors where
  title : Option String
  content : Option String
deriving DecidableEq, Repr

/-- The `{ valid, errors }` result of `validateNote`. -/
structure VResult where
  valid : Bool
  errors : VErrors
deriving DecidableEq, Repr

/-- Model of `validateNote` (src/notes_frontend/src/utils/validation.js): title
required and at most `MAX_TITLE` UTF-16 units, content at most `MAX_CONTENT`
units; `valid` iff the errors object has no keys.  The second `if` on the
title overwrites the first, exactly as the two JS statements do. -/
def validateNote (p : NotePayload) : VResult :=
  let t := p.title
  let c := p.content
  let titleErr0 : Option String :=
    if jsLength t = 0 then some "Title is required." else none
  let titleErr : Option String :=
    if jsLength t > MAX_TITLE then
      some ("Title must be at most " ++ toString MAX_TITLE ++ " characters.")
    else titleErr0
  let contentErr : Option String :=
    if jsLength c > MAX_CONTENT then
      some ("Content must be at most " ++ toString MAX_CONTENT ++ " characters.")
    else none
  { valid := titleErr.isNone && contentErr.isNone
    errors := { title := titleErr, content := contentErr } }

/-- A JavaScript/JSON value as it appears in request outcomes: `jnull` stands
for JS `null`. -/
inductive JVal where
  | jnull
  | jbool (b : Bool)
  | jnum (n : Int)
  | jstr (s : String)
  | jarr (elems : List JVal)
  | jobj (fields : List (String × JVal))

/-- JavaScript truthiness of a value (`[]` and `{}` are truthy). -/
def jtruthy : JVal → Bool
  | .jnull => false
  | .jbool b => b
  | .jnum n => n != 0
  | .jstr s => s != ""
  | .jarr _ => true
  | .jobj _ => true

/-- JavaScript property access `v[k]`: `none` models `undefined`. -/
def jget : JVal → String → Option JVal
  | .jobj fs, k => fs.lookup k
  | _, _ => none

/-- JavaScript `a || b` over possibly-`undefined` values: keep `a` when it is
present and truthy, otherwise `b`. -/
def jsOr (a b : Option JVal) : Option JVal :=
  match a with
  | some v => if jtruthy v then some v else b
  | none => b

/-- The discriminated result shape produced by `apiRequest`:
`{ ok, status, error, data }` with `jnull` for absent `error`/`data`. -/
structure RequestOutcome where
  ok : Bool
  status : Nat
  error : JVal
  data : JVal

/-- How the underlying `fetch` inside `apiRequest` can settle:
a response (with HTTP status, body text, and the result of `JSON.parse` on
that text — `none` when the parse throws), an `AbortError` raised by the
timeout's `controller.abort()`, or any other rejection. -/
inductive FetchResult where
  | response (status : Nat) (bodyText : String) (parsed : Option JVal)
  | abortErr
  | netErr

def DEFAULT_TIMEOUT_MS : Nat := 10000

/-- The error message chosen on a non-2xx response
(src/unnamed/part_000, lines 50-52):
`(data && (data.detail || data.message || data.error)) || generic`. -/
def errMessage (d : JVal) (status : Nat) : JVal :=
  let picked : Option JVal :=
    if jtruthy d then jsOr (jget d "detail") (jsOr (jget d "message") (jget d "error"))
    else none
  match picked with
  | some v =>
      if jtruthy v then v
      else .jstr ("Request failed with status " ++ toString status)
  | none => .jstr ("Request failed with status " ++ toString status)

/-- Model of `apiRequest` (src/unnamed/part_000) as a function of how `fetch` settles.
Returns the outcome together with a flag recording that `clearTimeout` ran on
that path (it runs first in the `try` body after `fetch` resolves, and first
in the `catch` body).  `res.ok` is `200 ≤ status < 300`; an empty body text
leaves `data` null; unparsable text falls back to the raw text. -/
def apiRequest (r : FetchResult) : RequestOutcome × Bool :=
  match r with
  | .response status bodyText parsed =>
      let data : JVal := if bodyText = "" then .jnull else parsed.getD (.jstr bodyText)
      if 200 ≤ status ∧ status < 300 then
        ({ ok := true, status := status, error := .jnull, data := data }, true)
      else
        ({ ok := false, status := status, error := errMessage data status, data := .jnull }, true)
  | .abortErr =>
      ({ ok := false, status := 0, error := .jstr "Request timed out", data := .jnull }, true)
  | .netErr =>
      ({ ok := false, status := 0, error := .jstr "Network error", data := .jnull }, true)

/-! ## The `useNotesApi` hook (src/unnamed/part_001, lines 11-101) -/

/-- The hook's observable state: the `inFlight` ref (an integer in JS), the
`loading` flag, and the `error` state (`none` models `null`). -/
structure ApiState where
  inFlight : Int
  loading : Bool
  error : Option JVal

/-- The first half of `withLoading`: `inFlight.current += 1; setLoading(true)`. -/
def startOp (st : ApiState) : ApiState :=
  { st with inFlight := st.inFlight + 1, loading := true }

/-- The `finally` block of `withLoading`: decrement, clamp at zero, and clear
the loading flag exactly when the counter reaches zero. -/
def finishOp (st : ApiState) : ApiState :=
  let c := st.inFlight - 1
  if c ≤ 0 then { st with inFlight := 0, loading := false }
  else { st with inFlight := c }

/-- The body of `withLoading` between start and finish:
`if (!res.ok) setError(res.error || 'Unknown error')`. -/
def recordOutcome (res : RequestOutcome) (st : ApiState) : ApiState :=
  if res.ok then st
  else { st with error := some (if jtruthy res.error then res.error else .jstr "Unknown error") }

/-- Model of `withLoading` run to completion with `fn` settling to `res`: increment and
raise the flag, record a failure as the current error, then decrement in the
`finally`; the settled outcome is returned to the caller unchanged. -/
def withLoading (st : ApiState) (res : RequestOutcome) : RequestOutcome × ApiState :=
  (res, finishOp (recordOutcome res (startOp st)))

/-- Model of `clearError`: `setError(null)`. -/
def clearError (st : ApiState) : ApiState :=
  { st with error := none }

/-- Model of `Array.isArray`. -/
def jisArray : JVal → Bool
  | .jarr _ => true
  | _ => false

/-- The response normalization inside `listNotes`: failures pass through; on
success the data is replaced by `Array.isArray(res.data) ? res.data : []`. -/
def listNotesNormalize (res : RequestOutcome) : RequestOutcome :=
  if res.ok then
    let d : JVal := if jisArray res.data then res.data else .jarr []
    { ok := true, status := res.status, error := .jnull, data := d }
  else res

/-- Model of `listNotes`: the whole body runs inside `withLoading`; `transport` is the
outcome `apiRequest('/notes', {method:'GET'})` settles to. -/
def listNotes (st : ApiState) (transport : RequestOutcome) : RequestOutcome × ApiState :=
  withLoading st (listNotesNormalize transport)

/-- Model of `getNote`: passes the transport outcome through `withLoading` unchanged. -/
def getNote (st : ApiState) (transport : RequestOutcome) : RequestOutcome × ApiState :=
  withLoading st transport

/-- Model of `deleteNote`: passes the transport outcome through `withLoading` unchanged. -/
def deleteNote (st : ApiState) (transport : RequestOutcome) : RequestOutcome × ApiState :=
  withLoading st transport

/-- The validation-rejection outcome shared by `createNote` and `updateNote`:
`{ ok:false, status:400, error: errors.title || errors.content ||
'Validation failed', data:null }`; `a || b` on message strings keeps `a`
when it is present and non-empty. -/
def rejectOutcome (e : VErrors) : RequestOutcome :=
  let pick : Option String → Option String → Option String := fun a b =>
    match a with
    | some s => if s = "" then b else some s
    | none => b
  { ok := false, status := 400
    error := .jstr ((pick e.title (pick e.content (some "Validation failed"))).getD "")
    data := .jnull }

/-- Model of `createNote` (src/unnamed/part_001, lines 56-66): sanitize, validate,
short-circuit on invalid input, otherwise run the POST inside `withLoading`.
The returned `Bool` records whether `apiRequest` was invoked. -/
def createNote (input : RawNoteInput) (st : ApiState) (transport : RequestOutcome) :
    RequestOutcome × ApiState × Bool :=
  let payload := sanitizeNoteInput input
  let v := validateNote payload
  if v.valid then
    let (res, st') := withLoading st transport
    (res, st', true)
  else
    (rejectOutcome v.errors, st, false)

/-- Model of `updateNote` (src/unnamed/part_001, lines 69-80): same shape as
`createNote`, for `PUT /notes/{id}`. -/
def updateNote (_id : String) (input : RawNoteInput) (st : ApiState)
    (transport : RequestOutcome) : RequestOutcome × ApiState × Bool :=
  let payload := sanitizeNoteInput input
  let v := validateNote payload
  if v.valid then
    let (res, st') := withLoading st transport
    (res, st', true)
  else
    (rejectOutcome v.errors, st, false)

/-! Interleaved executions of `withLoading`: with overlapping operations the
increment of one call and the decrement of another interleave on the shared
`inFlight` ref.  An execution is a sequence of start/finish events. -/

inductive LoadEvent where
  | start
  | finish
deriving DecidableEq, Repr

/-- One `withLoading` boundary event applied to the hook state. -/
def stepLoad (st : ApiState) : LoadEvent → ApiState
  | .start => startOp st
  | .finish => finishOp st

/-- Run a sequence of start/finish events from the initial hook state
(`inFlight = 0`, `loading = false`, `error = null`). -/
def runLoad (evs : List LoadEvent) : ApiState :=
  evs.foldl stepLoad ⟨0, false, none⟩

/-! ## The `App` coordinator (src/unnamed/part_001, lines 111-321) -/

/-- A note as the coordinator handles it: `{ id, title, content }`. -/
structure Note where
  id : String
  title : String
  content : String
deriving DecidableEq, Repr

/-- The coordinator state touched by the create/update flows: the collection,
the selected id, the hydrated selected note, and the busy flag (`none`
models `null`). -/
structure AppState where
  notes : List Note
  selectedNoteId : Option String
  selectedNote : Option Note
  busy : Bool
deriving DecidableEq, Repr

/-- A hook outcome as the coordinator consumes it: the coordinator reads only
`res.ok` and `res.data`, treating the data as a note object or `null`
(`data = none` models null/absent data, for which `res.data` is falsy). -/
structure NoteOutcome where
  ok : Bool
  status : Nat
  error : JVal
  data : Option Note

/-- Model of `handleAddNote` (src/unnamed/part_001, lines 199-230) run to completion
with the single `createNote` call settling to `res`: prepend an optimistic
placeholder `{id: tempId, title: 'Untitled note', content: ''}` and select
it; on `res.ok && res.data` replace the placeholder with the returned note
and move selection to it; otherwise remove the placeholder.  `setBusy(false)`
runs at the end of both paths. -/
def handleAddNote (st : AppState) (tempId : String) (res : NoteOutcome) : AppState :=
  let optimistic : Note := { id := tempId, title := "Untitled note", content := "" }
  let st1 : AppState :=
    { st with notes := optimistic :: st.notes
              selectedNoteId := some tempId
              selectedNote := some optimistic
              busy := true }
  match res.ok, res.data with
  | true, some n =>
      { st1 with notes := n :: st1.notes.filter (fun m => m.id ≠ tempId)
                 selectedNoteId := some n.id
                 selectedNote := some n
                 busy := false }
  | _, _ =>
      { st1 with notes := st1.notes.filter (fun m => m.id ≠ tempId)
                 busy := false }

/-- Model of `handleSaveNote` (src/unnamed/part_001, lines 232-244) run to completion
with the single `updateNote` call settling to `res`: a no-op when nothing is
selected; on `res.ok && res.data` the hydrated note is replaced and the
matching collection entry is swapped for the returned note; on any other
outcome only the busy flag is touched. -/
def handleSaveNote (st : AppState) (res : NoteOutcome) : AppState :=
  match st.selectedNoteId with
  | none => st
  | some sid =>
      let st1 : AppState := { st with busy := true }
      match res.ok, res.data with
      | true, some n =>
          { st1 with selectedNote := some n
                     notes := st1.notes.map (fun m => if m.id = sid then n else m)
                     busy := false }
      | _, _ => { st1 with busy := false }

/-! ## Helper lemmas about trimming -/

theorem dropWhile_head?_false {α : Type} (p : α → Bool) (l : List α) (c : α)
    (h : (l.dropWhile p).head? = some c) : p c = false := by
  induction l with
  | nil => simp [List.dropWhile] at h
  | cons a t ih =>
    rw [List.dropWhile_cons] at h
    by_cases hpa : p a = true
    · rw [if_pos hpa] at h
      exact ih h
    · rw [if_neg hpa] at h
      simp only [List.head?_cons, Option.some.injEq] at h
      rw [← h]
      exact Bool.not_eq_true _ ▸ hpa

theorem jsTrimList_decomp (l : List Char) :
    ∃ u v, l = u ++ jsTrimList l ++ v := by
  obtain ⟨u, hu⟩ := List.dropWhile_suffix (l := l) jsWhitespace
  obtain ⟨w, hw⟩ :=
    List.dropWhile_suffix (l := (l.dropWhile jsWhitespace).reverse) jsWhitespace
  refine ⟨u, w.reverse, ?_⟩
  have hm : l.dropWhile jsWhitespace = jsTrimList l ++ w.reverse := by
    have := congrArg List.reverse hw
    simpa [jsTrimList] using this.symm
  rw [List.append_assoc, ← hm, hu]

theorem jsTrimList_head?_false (l : List Char) (c : Char)
    (h : (jsTrimList l).head? = some c) : jsWhitespace c = false := by
  obtain ⟨w, hw⟩ :=
    List.dropWhile_suffix (l := (l.dropWhile jsWhitespace).reverse) jsWhitespace
  have hm : l.dropWhile jsWhitespace = jsTrimList l ++ w.reverse := by
    have := congrArg List.reverse hw
    simpa [jsTrimList] using this.symm
  apply dropWhile_head?_false jsWhitespace l c
  rw [hm]
  cases hjt : jsTrimList l with
  | nil => rw [hjt] at h; simp at h
  | cons a t =>
    rw [hjt] at h
    simp only [List.head?_cons, Option.some.injEq] at h
    simp [h]

theorem jsTrimList_revhead?_false (l : List Char) (c : Char)
    (h : (jsTrimList l).reverse.head? = some c) : jsWhitespace c = false := by
  have hrw : (jsTrimList l).reverse = (l.dropWhile jsWhitespace).reverse.dropWhile jsWhitespace := by
    simp [jsTrimList]
  rw [hrw] at h
  exact dropWhile_head?_false jsWhitespace _ c h

theorem dropWhile_jsTrimList (l : List Char) :
    (jsTrimList l).dropWhile jsWhitespace = jsTrimList l := by
  cases hjt : jsTrimList l with
  | nil => simp
  | cons a t =>
    have ha : jsWhitespace a = false := jsTrimList_head?_false l a (by rw [hjt]; rfl)
    rw [List.dropWhile_cons, if_neg (by simp [ha])]

theorem jsTrimList_idem (l : List Char) :
    jsTrimList (jsTrimList l) = jsTrimList l := by
  show (((jsTrimList l).dropWhile jsWhitespace).reverse.dropWhile jsWhitespace).reverse
      = jsTrimList l
  rw [dropWhile_jsTrimList]
  have h2 : (jsTrimList l).reverse = (l.dropWhile jsWhitespace).reverse.dropWhile jsWhitespace := by
    simp [jsTrimList]
  rw [h2, List.dropWhile_idempotent]
  simp [jsTrimList]

theorem jsTrim_idem (s : String) : jsTrim (jsTrim s) = jsTrim s := by
  simp [jsTrim, jsTrimList_idem]

theorem jsLength_jsTrim_le (s : String) : jsLength (jsTrim s) ≤ jsLength s := by
  obtain ⟨u, v, huv⟩ := jsTrimList_decomp s.data
  show ((jsTrimList s.data).map _).sum ≤ (s.data.map _).sum
  conv_rhs => rw [huv]
  simp [List.map_append, List.sum_append]
  omega

/-! ## Claim theorems: validation layer -/

/-- C10: `sanitizeNoteInput` is idempotent — re-sanitizing its own output
(including `null`/`undefined` fields coerced to `""`) returns it unchanged —
and its output's `title` and `content` are strings with no leading or
trailing whitespace character. -/
theorem c10_sanitize_idempotent (x : RawNoteInput) :
    sanitizeNoteInput ⟨some (sanitizeNoteInput x).title, some (sanitizeNoteInput x).content⟩
      = sanitizeNoteInput x
    ∧ (∀ c, (sanitizeNoteInput x).title.data.head? = some c → jsWhitespace c = false)
    ∧ (∀ c, (sanitizeNoteInput x).title.data.reverse.head? = some c → jsWhitespace c = false)
    ∧ (∀ c, (sanitizeNoteInput x).content.data.head? = some c → jsWhitespace c = false)
    ∧ (∀ c, (sanitizeNoteInput x).content.data.reverse.head? = some c → jsWhitespace c = false) := by
  refine ⟨?_, ?_, ?_, ?_, ?_⟩
  · show (⟨jsTrim (jsTrim (x.title.getD "")), jsTrim (jsTrim (x.content.getD ""))⟩ : NotePayload)
        = ⟨jsTrim (x.title.getD ""), jsTrim (x.content.getD "")⟩
    rw [jsTrim_idem, jsTrim_idem]
  · intro c hc
    exact jsTrimList_head?_false _ c hc
  · intro c hc
    exact jsTrimList_revhead?_false _ c hc
  · intro c hc
    exact jsTrimList_head?_false _ c hc
  · intro c hc
    exact jsTrimList_revhead?_false _ c hc

/-- Witness for C10 at the concrete input `{title: " a ", content: " b "}`. -/
theorem c10_sanitize_idempotent_witness :
    sanitizeNoteInput ⟨some (sanitizeNoteInput ⟨some " a ", some " b "⟩).title,
                       some (sanitizeNoteInput ⟨some " a ", some " b "⟩).content⟩
      = sanitizeNoteInput ⟨some " a ", some " b "⟩
    ∧ jsWhitespace 'a' = false ∧ jsWhitespace 'b' = false := by
  obtain ⟨h1, h2, h3, h4, h5⟩ := c10_sanitize_idempotent ⟨some " a ", some " b "⟩
  exact ⟨h1, h2 'a' (by decide), h4 'b' (by decide)⟩

/-- C5 fails as stated: the input `{title: " ", content: ""}` has
`1 ≤ len(title) ≤ 200` and `len(content) ≤ 10000`, yet sanitization trims
the title to `""` and validation rejects it. -/
theorem c5_counterexample :
    1 ≤ jsLength " " ∧ jsLength " " ≤ 200 ∧ jsLength "" ≤ 10000 ∧
    (validateNote (sanitizeNoteInput ⟨some " ", some ""⟩)).valid = false := by
  refine ⟨by decide, by decide, by decide, by decide⟩

/-- C5 amended: for every `{title, content}` whose *trimmed* title is
non-empty, with `len(title) ≤ 200` and `len(content) ≤ 10000`,
`validateNote (sanitizeNoteInput ..)` returns `valid = true`. -/
theorem c5_valid_inputs_amended (title content : String)
    (h1 : 1 ≤ jsLength (jsTrim title)) (h2 : jsLength title ≤ 200)
    (h3 : jsLength content ≤ 10000) :
    (validateNote (sanitizeNoteInput ⟨some title, some content⟩)).valid = true := by
  have htle : jsLength (jsTrim title) ≤ jsLength title := jsLength_jsTrim_le title
  have hcle : jsLength (jsTrim content) ≤ jsLength content := jsLength_jsTrim_le content
  have e0 : ¬(jsLength (jsTrim title) = 0) := by omega
  have e1 : ¬(jsLength (jsTrim title) > MAX_TITLE) := by
    simp only [MAX_TITLE]; omega
  have e2 : ¬(jsLength (jsTrim content) > MAX_CONTENT) := by
    simp only [MAX_CONTENT]; omega
  simp [validateNote, sanitizeNoteInput, e0, e1, e2]

/-- Witness for the amended C5 at `{title: "A", content: ""}`. -/
theorem c5_valid_inputs_witness :
    (1 ≤ jsLength (jsTrim "A") ∧ jsLength "A" ≤ 200 ∧ jsLength "" ≤ 10000) ∧
    (validateNote (sanitizeNoteInput ⟨some "A", some ""⟩)).valid = true :=
  ⟨⟨by decide, by decide, by decide⟩,
    c5_valid_inputs_amended "A" "" (by decide) (by decide) (by decide)⟩

/-! ## Helper lemmas: validation messages and resource-client short-circuit -/

theorem validateNote_title_msg_ne (p : NotePayload) (m : String)
    (h : (validateNote p).errors.title = some m) : m ≠ "" := by
  simp only [validateNote] at h
  split_ifs at h with h1 h2 <;>
    simp only [Option.some.injEq] at h <;>
    first
      | (rw [← h]; decide)
      | exact absurd h (by simp)

theorem validateNote_content_msg_ne (p : NotePayload) (m : String)
    (h : (validateNote p).errors.content = some m) : m ≠ "" := by
  simp only [validateNote] at h
  split_ifs at h with h1 <;>
    simp only [Option.some.injEq] at h <;>
    first
      | (rw [← h]; decide)
      | exact absurd h (by simp)

/-! ## Claim theorems: resource client -/

/-- C2: for every input whose sanitized form fails validation, `createNote`
and `updateNote` return `{ ok:false, status:400, error: first failing
field's message (title before content), data:null }` without invoking
`apiRequest` and without touching the hook state (in particular the
in-flight counter). -/
theorem c2_validation_short_circuit (input : RawNoteInput) (id : String)
    (st : ApiState) (t : RequestOutcome)
    (hv : (validateNote (sanitizeNoteInput input)).valid = false) :
    (createNote input st t).1.ok = false
    ∧ (createNote input st t).1.status = 400
    ∧ (createNote input st t).1.data = JVal.jnull
    ∧ (createNote input st t).2.1 = st
    ∧ (createNote input st t).2.2 = false
    ∧ updateNote id input st t = createNote input st t
    ∧ (∀ m, (validateNote (sanitizeNoteInput input)).errors.title = some m →
        (createNote input st t).1.error = JVal.jstr m)
    ∧ ((validateNote (sanitizeNoteInput input)).errors.title = none →
        ∀ m, (validateNote (sanitizeNoteInput input)).errors.content = some m →
          (createNote input st t).1.error = JVal.jstr m) := by
  have hc : createNote input st t
      = (rejectOutcome (validateNote (sanitizeNoteInput input)).errors, st, false) := by
    unfold createNote
    simp [hv]
  have hu : updateNote id input st t
      = (rejectOutcome (validateNote (sanitizeNoteInput input)).errors, st, false) := by
    unfold updateNote
    simp [hv]
  rw [hc, hu]
  refine ⟨rfl, rfl, rfl, rfl, rfl, rfl, ?_, ?_⟩
  · intro m hm
    have hne : m ≠ "" := validateNote_title_msg_ne _ m hm
    simp [rejectOutcome, hm, hne]
  · intro ht m hm
    have hne : m ≠ "" := validateNote_content_msg_ne _ m hm
    simp [rejectOutcome, ht, hm, hne]

/-- Witness for C2 at the concrete invalid input `{title:"", content:""}`. -/
theorem c2_validation_short_circuit_witness :
    (validateNote (sanitizeNoteInput ⟨some "", some ""⟩)).valid = false
    ∧ (createNote ⟨some "", some ""⟩ ⟨0, false, none⟩
        ⟨true, 200, JVal.jnull, JVal.jnull⟩).1.status = 400
    ∧ (createNote ⟨some "", some ""⟩ ⟨0, false, none⟩
        ⟨true, 200, JVal.jnull, JVal.jnull⟩).2.2 = false
    ∧ (createNote ⟨some "", some ""⟩ ⟨0, false, none⟩
        ⟨true, 200, JVal.jnull, JVal.jnull⟩).1.error = JVal.jstr "Title is required." := by
  have h := c2_validation_short_circuit ⟨some "", some ""⟩ "x" ⟨0, false, none⟩
    ⟨true, 200, JVal.jnull, JVal.jnull⟩ (by decide)
  exact ⟨by decide, h.2.1, h.2.2.2.2.1, h.2.2.2.2.2.2.1 "Title is required." (by decide)⟩

/-! ## Helper lemmas: transport outcomes -/

theorem string_data_append (a b : String) : (a ++ b).data = a.data ++ b.data := by
  cases a
  cases b
  rfl

theorem request_failed_msg_ne (s : Nat) :
    ("Request failed with status " ++ toString s) ≠ "" := by
  intro h
  have hd := congrArg String.data h
  rw [string_data_append] at hd
  have hr : "Request failed with status ".data
      = 'R' :: "equest failed with status ".data := rfl
  rw [hr] at hd
  simp at hd

theorem errMessage_truthy (d : JVal) (s : Nat) : jtruthy (errMessage d s) = true := by
  have hgen : jtruthy (JVal.jstr ("Request failed with status " ++ toString s)) = true := by
    show (("Request failed with status " ++ toString s) != "") = true
    simp only [bne_iff_ne, ne_eq]
    exact request_failed_msg_ne s
  simp only [errMessage]
  cases hp : (if jtruthy d then jsOr (jget d "detail") (jsOr (jget d "message") (jget d "error"))
      else none) with
  | none => exact hgen
  | some v =>
    by_cases hv : jtruthy v = true
    · simp [hv]
    · show jtruthy (if jtruthy v = true then v
          else JVal.jstr ("Request failed with status " ++ toString s)) = true
      rw [if_neg hv]
      exact hgen

theorem apiRequest_fail_parts (r : FetchResult)
    (h : (apiRequest r).1.ok = false) :
    (apiRequest r).1.data = JVal.jnull ∧ jtruthy (apiRequest r).1.error = true := by
  cases r with
  | response s bt p =>
    by_cases hs : 200 ≤ s ∧ s < 300
    · rw [apiRequest] at h
      simp only [hs, if_true] at h
      simp at h
    · have hform : apiRequest (.response s bt p)
          = ({ ok := false, status := s,
               error := errMessage (if bt = "" then .jnull else p.getD (.jstr bt)) s,
               data := .jnull }, true) := by
        rw [apiRequest]
        simp [hs]
      rw [hform]
      exact ⟨rfl, errMessage_truthy _ s⟩
  | abortErr => exact ⟨rfl, by decide⟩
  | netErr => exact ⟨rfl, by decide⟩

/-- Claim C4: every `apiRequest` outcome satisfies the `RequestOutcome`
invariant — on `ok = true` the error is null; on `ok = false` the data is
null and the error is a truthy (in particular non-empty when a string)
message; the status equals the HTTP status for a response and 0 for a
transport-level failure (timeout or network error). -/
theorem c4_outcome_invariant :
    (∀ r, ((apiRequest r).1.ok = true → (apiRequest r).1.error = JVal.jnull)
      ∧ ((apiRequest r).1.ok = false →
          (apiRequest r).1.data = JVal.jnull ∧ jtruthy (apiRequest r).1.error = true))
    ∧ (∀ s bt p, (apiRequest (.response s bt p)).1.status = s)
    ∧ (apiRequest .abortErr).1.status = 0
    ∧ (apiRequest .netErr).1.status = 0 := by
  refine ⟨?_, ?_, rfl, rfl⟩
  · intro r
    refine ⟨?_, apiRequest_fail_parts r⟩
    intro hok
    cases r with
    | response s bt p =>
      by_cases hs : 200 ≤ s ∧ s < 300
      · rw [apiRequest]
        simp [hs]
      · rw [apiRequest] at hok
        simp [hs] at hok
    | abortErr => simp [apiRequest] at hok
    | netErr => simp [apiRequest] at hok
  · intro s bt p
    by_cases hs : 200 ≤ s ∧ s < 300 <;> simp [apiRequest, hs]

/-- Witness for C4: concrete instances — a 404 with an empty body and a
successful 200 with a JSON object body. -/
theorem c4_outcome_invariant_witness :
    ((apiRequest (.response 404 "" none)).1.ok = false →
      (apiRequest (.response 404 "" none)).1.data = JVal.jnull
      ∧ jtruthy (apiRequest (.response 404 "" none)).1.error = true)
    ∧ ((apiRequest (.response 200 "{}" (some (.jobj [])))).1.ok = true →
      (apiRequest (.response 200 "{}" (some (.jobj [])))).1.error = JVal.jnull)
    ∧ (apiRequest (.response 404 "" none)).1.status = 404 := by
  have h := c4_outcome_invariant
  exact ⟨(h.1 (.response 404 "" none)).2, (h.1 (.response 200 "{}" (some (.jobj [])))).1,
    h.2.1 404 "" none⟩

/-- Claim C8: a request whose `fetch` rejects with the timeout's `AbortError`
settles (is returned, not thrown) as `{ ok:false, status:0,
error:"Request timed out", data:null }`, and `clearTimeout` runs on every
path of `apiRequest` (success, HTTP error, abort, network error). -/
theorem c8_timeout_outcome :
    (apiRequest .abortErr).1.ok = false
    ∧ (apiRequest .abortErr).1.status = 0
    ∧ (apiRequest .abortErr).1.error = JVal.jstr "Request timed out"
    ∧ (apiRequest .abortErr).1.data = JVal.jnull
    ∧ (∀ r, (apiRequest r).2 = true) := by
  refine ⟨rfl, rfl, rfl, rfl, ?_⟩
  intro r
  cases r with
  | response s bt p =>
    by_cases hs : 200 ≤ s ∧ s < 300 <;> simp [apiRequest, hs]
  | abortErr => rfl
  | netErr => rfl

/-- Claim C9: on a successful transport response, `listNotes` keeps an array
body unchanged and replaces any non-array body with the empty array, still
reporting success. -/
theorem c9_list_normalization (st : ApiState) (t : RequestOutcome)
    (hok : t.ok = true) :
    (listNotes st t).1.ok = true
    ∧ (jisArray t.data = true → (listNotes st t).1.data = t.data)
    ∧ (jisArray t.data = false → (listNotes st t).1.data = JVal.jarr []) := by
  refine ⟨?_, ?_, ?_⟩
  · simp [listNotes, withLoading, listNotesNormalize, hok]
  · intro h
    simp [listNotes, withLoading, listNotesNormalize, hok, h]
  · intro h
    simp [listNotes, withLoading, listNotesNormalize, hok, h]

/-- Witness for C9: a success with a string body is normalized to `[]`; a
success with an array body is passed through. -/
theorem c9_list_normalization_witness :
    (listNotes ⟨0, false, none⟩ ⟨true, 200, JVal.jnull, JVal.jstr "oops"⟩).1.data
      = JVal.jarr []
    ∧ (listNotes ⟨0, false, none⟩
        ⟨true, 200, JVal.jnull, JVal.jarr [JVal.jobj []]⟩).1.data
      = JVal.jarr [JVal.jobj []] := by
  refine ⟨?_, ?_⟩
  · exact (c9_list_normalization ⟨0, false, none⟩
      ⟨true, 200, JVal.jnull, JVal.jstr "oops"⟩ rfl).2.2 rfl
  · exact (c9_list_normalization ⟨0, false, none⟩
      ⟨true, 200, JVal.jnull, JVal.jarr [JVal.jobj []]⟩ rfl).2.1 rfl

/-! ## Helper lemmas: loading aggregation -/

theorem stepLoad_inv (st : ApiState) (e : LoadEvent)
    (h1 : 0 ≤ st.inFlight) (h2 : st.loading = decide (0 < st.inFlight)) :
    0 ≤ (stepLoad st e).inFlight
    ∧ (stepLoad st e).loading = decide (0 < (stepLoad st e).inFlight) := by
  cases e with
  | start =>
    have hpos : 0 < st.inFlight + 1 := by omega
    constructor
    · show 0 ≤ st.inFlight + 1
      omega
    · show true = decide (0 < st.inFlight + 1)
      simp [hpos]
  | finish =>
    show 0 ≤ (finishOp st).inFlight ∧ (finishOp st).loading = decide (0 < (finishOp st).inFlight)
    unfold finishOp
    by_cases hc : st.inFlight - 1 ≤ 0
    · rw [if_pos hc]
      simp
    · rw [if_neg hc]
      have hgt : 0 < st.inFlight - 1 := by omega
      have hgt' : 0 < st.inFlight := by omega
      constructor
      · show 0 ≤ st.inFlight - 1
        omega
      · show st.loading = decide (0 < st.inFlight - 1)
        rw [h2]
        simp [hgt, hgt']

theorem foldl_stepLoad_inv (evs : List LoadEvent) (st : ApiState)
    (h1 : 0 ≤ st.inFlight) (h2 : st.loading = decide (0 < st.inFlight)) :
    0 ≤ (evs.foldl stepLoad st).inFlight
    ∧ (evs.foldl stepLoad st).loading = decide (0 < (evs.foldl stepLoad st).inFlight) := by
  induction evs generalizing st with
  | nil => exact ⟨h1, h2⟩
  | cons e rest ih =>
    rw [List.foldl_cons]
    obtain ⟨g1, g2⟩ := stepLoad_inv st e h1 h2
    exact ih (stepLoad st e) g1 g2

/-- Claim C3: over every interleaving of `withLoading` start/finish events
from the initial hook state, the in-flight counter stays non-negative and
the loading flag is true exactly when the counter is positive; one balanced
`withLoading` call leaves the counter where it started; and in the
two-overlapping-operations trace the flag is true from the first start and
only becomes false once both have finished. -/
theorem c3_loading_aggregation :
    (∀ evs, 0 ≤ (runLoad evs).inFlight
      ∧ ((runLoad evs).loading = true ↔ 0 < (runLoad evs).inFlight))
    ∧ (∀ st res, 0 ≤ st.inFlight → (withLoading st res).2.inFlight = st.inFlight)
    ∧ (runLoad [.start]).loading = true
    ∧ (runLoad [.start, .start]).loading = true
    ∧ (runLoad [.start, .start, .finish]).loading = true
    ∧ (runLoad [.start, .start, .finish, .finish]).loading = false := by
  refine ⟨?_, ?_, rfl, rfl, ?_, ?_⟩
  · intro evs
    obtain ⟨g1, g2⟩ := foldl_stepLoad_inv evs ⟨0, false, none⟩ (by simp) (by simp)
    unfold runLoad
    refine ⟨g1, ?_⟩
    rw [g2]
    simp
  · intro st res h
    show (finishOp (recordOutcome res (startOp st))).inFlight = st.inFlight
    have hrs : (recordOutcome res (startOp st)).inFlight = st.inFlight + 1 := by
      unfold recordOutcome startOp
      by_cases hok : res.ok = true
      · rw [if_pos hok]
      · rw [if_neg hok]
    unfold finishOp
    rw [hrs]
    by_cases hc : st.inFlight + 1 - 1 ≤ 0
    · rw [if_pos hc]
      show (0 : Int) = st.inFlight
      omega
    · rw [if_neg hc]
      show st.inFlight + 1 - 1 = st.inFlight
      omega
  · show (finishOp (startOp (startOp ⟨0, false, none⟩))).loading = true
    decide
  · show (finishOp (finishOp (startOp (startOp ⟨0, false, none⟩)))).loading = false
    decide

/-- Witness for C3 at a concrete trace and a concrete balanced call. -/
theorem c3_loading_aggregation_witness :
    (0 ≤ (runLoad [.start, .finish, .start]).inFlight
      ∧ ((runLoad [.start, .finish, .start]).loading = true
          ↔ 0 < (runLoad [.start, .finish, .start]).inFlight))
    ∧ (withLoading ⟨0, false, none⟩ ⟨true, 200, JVal.jnull, JVal.jnull⟩).2.inFlight = 0 := by
  refine ⟨c3_loading_aggregation.1 [.start, .finish, .start], ?_⟩
  exact c3_loading_aggregation.2.1 ⟨0, false, none⟩ ⟨true, 200, JVal.jnull, JVal.jnull⟩ (by simp)

/-! ## Claim theorems: coordinator -/

/-- Claim C6: when a save fails, `handleSaveNote` leaves the collection, the
selected id, and the hydrated note untouched; when it succeeds with a
returned note, both the hydrated note and the matching collection entry are
replaced by that note and the selection stays on the same id. -/
theorem c6_save_frame (st : AppState) (res : NoteOutcome) (sid : String)
    (hsel : st.selectedNoteId = some sid) :
    (res.ok = false →
      (handleSaveNote st res).notes = st.notes
      ∧ (handleSaveNote st res).selectedNoteId = st.selectedNoteId
      ∧ (handleSaveNote st res).selectedNote = st.selectedNote)
    ∧ (∀ n, res.ok = true → res.data = some n →
      (handleSaveNote st res).selectedNote = some n
      ∧ (handleSaveNote st res).notes = st.notes.map (fun m => if m.id = sid then n else m)
      ∧ (handleSaveNote st res).selectedNoteId = some sid) := by
  obtain ⟨rok, rstat, rerr, rdata⟩ := res
  constructor
  · intro hok
    simp only at hok
    subst hok
    cases rdata <;> simp [handleSaveNote, hsel]
  · intro n hok hdat
    simp only at hok hdat
    subst hok
    subst hdat
    simp [handleSaveNote, hsel]

/-- Witness for C6: one failing and one succeeding save on a one-note state. -/
theorem c6_save_frame_witness :
    (handleSaveNote ⟨[⟨"1", "t", "c"⟩], some "1", some ⟨"1", "t", "c"⟩, false⟩
        ⟨false, 500, JVal.jstr "boom", none⟩).notes = [⟨"1", "t", "c"⟩]
    ∧ (handleSaveNote ⟨[⟨"1", "t", "c"⟩], some "1", some ⟨"1", "t", "c"⟩, false⟩
        ⟨false, 500, JVal.jstr "boom", none⟩).selectedNote = some ⟨"1", "t", "c"⟩
    ∧ (handleSaveNote ⟨[⟨"1", "t", "c"⟩], some "1", some ⟨"1", "t", "c"⟩, false⟩
        ⟨true, 200, JVal.jnull, some ⟨"1", "t2", "c2"⟩⟩).selectedNote = some ⟨"1", "t2", "c2"⟩ := by
  have hfail := (c6_save_frame ⟨[⟨"1", "t", "c"⟩], some "1", some ⟨"1", "t", "c"⟩, false⟩
    ⟨false, 500, JVal.jstr "boom", none⟩ "1" rfl).1 rfl
  have hok := (c6_save_frame ⟨[⟨"1", "t", "c"⟩], some "1", some ⟨"1", "t", "c"⟩, false⟩
    ⟨true, 200, JVal.jnull, some ⟨"1", "t2", "c2"⟩⟩ "1" rfl).2 ⟨"1", "t2", "c2"⟩ rfl rfl
  exact ⟨hfail.1, hfail.2.2, hok.1⟩

/-- Claim C1 is false on the code: after a failed create, `handleAddNote`
removes the optimistic placeholder from the collection but does **not**
clear the selection — the selected id stays the temporary id instead of
reverting to none.  Concrete run: empty initial state, a network-error
outcome. -/
theorem c1_create_failure_counterexample :
    (handleAddNote ⟨[], none, none, false⟩ "temp-1700000000000"
        ⟨false, 0, JVal.jstr "Network error", none⟩).selectedNoteId
      = some "temp-1700000000000"
    ∧ (some "temp-1700000000000" ≠ (none : Option String))
    ∧ (handleAddNote ⟨[], none, none, false⟩ "temp-1700000000000"
        ⟨false, 0, JVal.jstr "Network error", none⟩).notes = [] := by
  refine ⟨rfl, by simp, ?_⟩
  simp [handleAddNote]

/-- Claim C1 amended: for every create flow that settles in failure
(`ok:false`, or success without a returned note), the optimistic placeholder
is absent from the collection afterwards and the single create call is not
retried, but the selection is *not* cleared: the selected id remains the
temporary id and the hydrated selected note remains the placeholder. -/
theorem c1_create_failure_amended (st : AppState) (tempId : String) (res : NoteOutcome)
    (hfail : res.ok = false ∨ res.data = none) :
    (∀ n ∈ (handleAddNote st tempId res).notes, n.id ≠ tempId)
    ∧ (handleAddNote st tempId res).selectedNoteId = some tempId
    ∧ (handleAddNote st tempId res).selectedNote
        = some ⟨tempId, "Untitled note", ""⟩ := by
  obtain ⟨rok, rstat, rerr, rdata⟩ := res
  have hbranch : handleAddNote st tempId ⟨rok, rstat, rerr, rdata⟩
      = { notes := ({ id := tempId, title := "Untitled note", content := "" } :: st.notes).filter
            (fun m => m.id ≠ tempId)
          selectedNoteId := some tempId
          selectedNote := some { id := tempId, title := "Untitled note", content := "" }
          busy := false } := by
    rcases hfail with h | h
    · simp only at h
      subst h
      cases rdata <;> rfl
    · simp only at h
      subst h
      cases rok <;> rfl
  rw [hbranch]
  refine ⟨?_, rfl, rfl⟩
  intro n hn
  simp only [List.mem_filter] at hn
  simpa using hn.2

/-- Witness for the amended C1: a failed create from a one-note state. -/
theorem c1_create_failure_witness :
    (∀ n ∈ (handleAddNote ⟨[⟨"9", "a", "b"⟩], some "9", some ⟨"9", "a", "b"⟩, false⟩
        "temp-42" ⟨false, 500, JVal.jstr "boom", none⟩).notes, n.id ≠ "temp-42")
    ∧ (handleAddNote ⟨[⟨"9", "a", "b"⟩], some "9", some ⟨"9", "a", "b"⟩, false⟩
        "temp-42" ⟨false, 500, JVal.jstr "boom", none⟩).selectedNoteId = some "temp-42" := by
  have h := c1_create_failure_amended ⟨[⟨"9", "a", "b"⟩], some "9", some ⟨"9", "a", "b"⟩, false⟩
    "temp-42" ⟨false, 500, JVal.jstr "boom", none⟩ (Or.inl rfl)
  exact ⟨h.1, h.2.1⟩

/-! ## Helper lemmas: error surfacing -/

theorem finishOp_error (st : ApiState) : (finishOp st).error = st.error := by
  unfold finishOp
  by_cases hc : st.inFlight - 1 ≤ 0
  · rw [if_pos hc]
  · rw [if_neg hc]

/-- Claim C7 is false on the code for the ValidationError kind: a create (or
update) rejected by validation returns a settled `ok:false` outcome but never
reaches `withLoading`, so the hook's current error is left unchanged (here:
still `none`) instead of becoming the operation's failure message. -/
theorem c7_error_surfacing_counterexample :
    (createNote ⟨some "", some ""⟩ ⟨0, false, none⟩
        ⟨true, 200, JVal.jnull, JVal.jnull⟩).1.ok = false
    ∧ (createNote ⟨some "", some ""⟩ ⟨0, false, none⟩
        ⟨true, 200, JVal.jnull, JVal.jnull⟩).1.error = JVal.jstr "Title is required."
    ∧ (createNote ⟨some "", some ""⟩ ⟨0, false, none⟩
        ⟨true, 200, JVal.jnull, JVal.jnull⟩).2.1.error = none :=
  ⟨rfl, rfl, rfl⟩

/-- Claim C7 amended: every transport-side failure kind (timeout, network
error, HTTP error) settles through `withLoading`, which records the
operation's failure message as the single current error and still returns
the settled outcome to the caller; a ValidationError also yields a settled
`ok:false, status:400` outcome (nothing is thrown), but it short-circuits
before `withLoading` and leaves the current error unchanged. -/
theorem c7_error_surfacing_amended :
    (∀ st r, (apiRequest r).1.ok = false →
        (withLoading st (apiRequest r).1).2.error = some ((apiRequest r).1.error)
        ∧ (withLoading st (apiRequest r).1).1 = (apiRequest r).1)
    ∧ (∀ st, (withLoading st (apiRequest .abortErr).1).2.error
        = some (JVal.jstr "Request timed out"))
    ∧ (∀ st, (withLoading st (apiRequest .netErr).1).2.error
        = some (JVal.jstr "Network error"))
    ∧ (∀ input st t, (validateNote (sanitizeNoteInput input)).valid = false →
        (createNote input st t).2.1 = st
        ∧ (createNote input st t).1.ok = false
        ∧ (createNote input st t).1.status = 400) := by
  have hfail : ∀ (st : ApiState) (res : RequestOutcome), res.ok = false →
      jtruthy res.error = true →
      (withLoading st res).2.error = some res.error ∧ (withLoading st res).1 = res := by
    intro st res hok htr
    constructor
    · show (finishOp (recordOutcome res (startOp st))).error = some res.error
      rw [finishOp_error]
      unfold recordOutcome
      rw [if_neg (by simp [hok]), htr]
      rfl
    · rfl
  refine ⟨?_, ?_, ?_, ?_⟩
  · intro st r hr
    exact hfail st (apiRequest r).1 hr (apiRequest_fail_parts r hr).2
  · intro st
    exact (hfail st (apiRequest .abortErr).1 rfl (by decide)).1
  · intro st
    exact (hfail st (apiRequest .netErr).1 rfl (by decide)).1
  · intro input st t hv
    have hc : createNote input st t
        = (rejectOutcome (validateNote (sanitizeNoteInput input)).errors, st, false) := by
      unfold createNote
      simp [hv]
    rw [hc]
    exact ⟨rfl, rfl, rfl⟩

/-- Witness for the amended C7 at concrete failing operations. -/
theorem c7_error_surfacing_witness :
    (withLoading ⟨0, false, none⟩ (apiRequest .abortErr).1).2.error
      = some (JVal.jstr "Request timed out")
    ∧ (withLoading ⟨2, true, none⟩ (apiRequest .netErr).1).2.error
      = some (JVal.jstr "Network error")
    ∧ (createNote ⟨none, none⟩ ⟨0, false, none⟩
        ⟨true, 200, JVal.jnull, JVal.jnull⟩).2.1 = ⟨0, false, none⟩ := by
  refine ⟨c7_error_surfacing_amended.2.1 ⟨0, false, none⟩,
    c7_error_surfacing_amended.2.2.1 ⟨2, true, none⟩, ?_⟩
  exact (c7_error_surfacing_amended.2.2.2 ⟨none, none⟩ ⟨0, false, none⟩
    ⟨true, 200, JVal.jnull, JVal.jnull⟩ (by decide)).1

end NotesApp
